import Mathlib

/-!
Verification of the user-data propagation core of `pest_consume`
(`src/pest_consume/src/advanced_features/user_data.rs`).

The repository ships the module documentation of the user-data feature;
the data model below (`Nodes`, `Node`, `Parser::parse`,
`Parser::parse_with_userdata`) follows that documentation and the
specification, since the implementation file itself is not part of the
sources. The external grammar engine is modelled as an explicit function
argument producing either a parse tree or an error, exactly as the
collaborator contract describes.
-/

/-- Modelled from the spec: a source span of a grammar-rule match,
recorded as start and stop character offsets into the input text. -/
structure Span where
  start : Nat
  stop : Nat
  deriving DecidableEq, Repr

/-- Modelled from the spec: the grammar engine's parse tree — each match
carries its rule tag, its span into the input, and its ordered list of
immediate child matches. -/
inductive PTree (Rule : Type) : Type where
  | mk (rule : Rule) (span : Span) (children : List (PTree Rule))

/-- Rule tag of a match. -/
def PTree.rule {Rule : Type} : PTree Rule → Rule
  | .mk r _ _ => r

/-- Span of a match. -/
def PTree.span {Rule : Type} : PTree Rule → Span
  | .mk _ s _ => s

/-- Immediate child matches, in the order the grammar engine recorded
them. -/
def PTree.kids {Rule : Type} : PTree Rule → List (PTree Rule)
  | .mk _ _ c => c

/-- The substring of the input text covered by this match's span. -/
def PTree.as_str {Rule : Type} (t : PTree Rule) (input : String) : String :=
  String.mk ((input.toList.drop t.span.start).take (t.span.stop - t.span.start))

/-- Modelled from the spec: the Node Collection returned by the entry
point, owning the input text, the top-level parse trees and the user
data. -/
structure Nodes (Rule Data : Type) where
  input : String
  trees : List (PTree Rule)
  userData : Data

/-- Modelled from the spec: a Tree Node — one position in the parse tree
together with the shared input text and a duplicate of the user data. -/
structure Node (Rule Data : Type) where
  input : String
  tree : PTree Rule
  userData : Data

/-- Modelled from the spec: errors raised by the Node Collection itself;
`single` reports the actual top-level match count when it is not one. -/
inductive NodesError where
  | expectedOneNode (count : Nat)
  deriving DecidableEq, Repr

/-- Modelled from the spec: `Node::user_data` returns a duplicate of the
handle the node carries. -/
def Node.user_data {Rule Data : Type} (n : Node Rule Data) : Data :=
  n.userData

/-- Modelled from the spec: `Node::as_rule` returns the grammar-engine
rule tag this node matched. -/
def Node.as_rule {Rule Data : Type} (n : Node Rule Data) : Rule :=
  n.tree.rule

/-- Modelled from the spec: `Node::as_str` returns the substring of the
input text this node's rule match spans. -/
def Node.as_str {Rule Data : Type} (n : Node Rule Data) : String :=
  n.tree.as_str n.input

/-- Modelled from the spec: `Node::children` produces the immediate child
nodes of this node's grammar match, each duplicating this node's user
data handle. -/
def Node.children {Rule Data : Type} (n : Node Rule Data) : List (Node Rule Data) :=
  n.tree.kids.map (fun t => ⟨n.input, t, n.userData⟩)

/-- Modelled from the spec: the observable effect of a `user_data` call
on a node — the returned duplicate of the handle together with the
state of the node after the call (the call borrows the node read-only,
so the post-call state is the node itself). -/
def Node.user_data_call {Rule Data : Type} (n : Node Rule Data) :
    Data × Node Rule Data :=
  (n.userData, n)

/-- Modelled from the spec: `Nodes::user_data` returns a duplicate of the
collection's user data. -/
def Nodes.user_data {Rule Data : Type} (c : Nodes Rule Data) : Data :=
  c.userData

/-- Modelled from the spec: iterating a Node Collection yields one Tree
Node per top-level match, in recorded order, each duplicating the
collection's user data. -/
def Nodes.iterList {Rule Data : Type} (c : Nodes Rule Data) : List (Node Rule Data) :=
  c.trees.map (fun t => ⟨c.input, t, c.userData⟩)

/-- Modelled from the spec: `Nodes::single` succeeds only when the
collection holds exactly one top-level match, and otherwise fails with
the cardinality-mismatch error carrying the actual count. -/
def Nodes.single {Rule Data : Type} (c : Nodes Rule Data) :
    Except NodesError (Node Rule Data) :=
  match c.trees with
  | [t] => .ok ⟨c.input, t, c.userData⟩
  | ts => .error (.expectedOneNode ts.length)

/-- Modelled from the spec: `Parser::parse_with_userdata` invokes the
external grammar engine and, on success, wraps the resulting parse
trees, the original input and the user data into a Node Collection; on
failure it propagates the engine's error unchanged. -/
def parse_with_userdata {Rule Data E : Type}
    (engine : Rule → String → Except E (List (PTree Rule)))
    (r : Rule) (s : String) (u : Data) : Except E (Nodes Rule Data) :=
  match engine r s with
  | .error e => .error e
  | .ok ts => .ok ⟨s, ts, u⟩

/-- Modelled from the spec: `Parser::parse` invokes the grammar engine
and wraps the result with unit user data. -/
def parse {Rule E : Type}
    (engine : Rule → String → Except E (List (PTree Rule)))
    (r : Rule) (s : String) : Except E (Nodes Rule Unit) :=
  match engine r s with
  | .error e => .error e
  | .ok ts => .ok ⟨s, ts, ()⟩

/-- A Tree Node is reachable from a Node Collection when it is one of
the collection's top-level nodes, the result of `single`, or an element
of `children` of a reachable node. -/
inductive Reachable {Rule Data : Type} (c : Nodes Rule Data) :
    Node Rule Data → Prop where
  | top (n : Node Rule Data) : n ∈ c.iterList → Reachable c n
  | sole (n : Node Rule Data) : c.single = .ok n → Reachable c n
  | child (n m : Node Rule Data) :
      Reachable c n → m ∈ n.children → Reachable c m

/-- Modelled from the spec: the state of an iterator over the top-level
nodes of a collection — the input, the matches not yet produced, and
the user data to duplicate into each produced node. -/
structure NodesIter (Rule Data : Type) where
  input : String
  remaining : List (PTree Rule)
  userData : Data

/-- Modelled from the spec: starting iteration from scratch on a Node
Collection. -/
def Nodes.into_iter {Rule Data : Type} (c : Nodes Rule Data) :
    NodesIter Rule Data :=
  ⟨c.input, c.trees, c.userData⟩

/-- Modelled from the spec: one iteration step, producing the next
top-level Tree Node on demand, or nothing when the sequence is over. -/
def NodesIter.next {Rule Data : Type} :
    NodesIter Rule Data → Option (Node Rule Data × NodesIter Rule Data)
  | ⟨_, [], _⟩ => none
  | ⟨i, t :: ts, u⟩ => some (⟨i, t, u⟩, ⟨i, ts, u⟩)

/-- Running an iterator to exhaustion, collecting every node it
produces. -/
def NodesIter.run {Rule Data : Type} : NodesIter Rule Data → List (Node Rule Data)
  | ⟨_, [], _⟩ => []
  | ⟨i, t :: ts, u⟩ => ⟨i, t, u⟩ :: NodesIter.run ⟨i, ts, u⟩

/-- The rules of the documentation's CSV example grammar. -/
inductive CSVRule where
  | file
  | row
  | number
  deriving DecidableEq, Repr

/-- Modelled from the spec: the grammar-mismatch error of the external
grammar engine, carrying a position for diagnostics. -/
structure EngineError where
  pos : Nat
  deriving DecidableEq, Repr

/-- Modelled from the spec: a concrete instance of the external grammar
engine collaborator, realising the two end-to-end scenarios — rule
`number` matching the input "42", and rule `file` matching two `row`
rules over the input "1\n2\n"; every other request is a grammar
mismatch. -/
def toyEngine (r : CSVRule) (s : String) :
    Except EngineError (List (PTree CSVRule)) :=
  if r = CSVRule.number ∧ s = "42" then
    .ok [PTree.mk CSVRule.number ⟨0, 2⟩ []]
  else if r = CSVRule.file ∧ s = "1\n2\n" then
    .ok [PTree.mk CSVRule.file ⟨0, 4⟩
      [PTree.mk CSVRule.row ⟨0, 1⟩ [], PTree.mk CSVRule.row ⟨2, 3⟩ []]]
  else
    .error ⟨0⟩

/-- A second grammar engine instance that agrees with `toyEngine` on
rule `number` with input "42" but behaves differently elsewhere. -/
def toyEngineB (r : CSVRule) (s : String) :
    Except EngineError (List (PTree CSVRule)) :=
  if r = CSVRule.number ∧ s = "42" then
    .ok [PTree.mk CSVRule.number ⟨0, 2⟩ []]
  else
    .error ⟨7⟩

/-- The parse tree of the first `row` match in the file scenario. -/
def rowTree1 : PTree CSVRule := PTree.mk CSVRule.row ⟨0, 1⟩ []

/-- The parse tree of the second `row` match in the file scenario. -/
def rowTree2 : PTree CSVRule := PTree.mk CSVRule.row ⟨2, 3⟩ []

/-- The parse tree of the `file` match in the file scenario. -/
def fileTree : PTree CSVRule := PTree.mk CSVRule.file ⟨0, 4⟩ [rowTree1, rowTree2]

/-- The Node Collection produced by parsing "1\n2\n" with user data 42. -/
def c42 : Nodes CSVRule Nat := ⟨"1\n2\n", [fileTree], 42⟩

/-- The sole top-level node of `c42`. -/
def fileNode : Node CSVRule Nat := ⟨"1\n2\n", fileTree, 42⟩

/-- Running an iterator collects exactly one node per remaining match,
in order, duplicating the iterator's user data into each. -/
theorem NodesIter.run_eq_map {Rule Data : Type} (i : String) (u : Data)
    (ts : List (PTree Rule)) :
    NodesIter.run ⟨i, ts, u⟩ = ts.map (fun t => ⟨i, t, u⟩) := by
  induction ts with
  | nil => simp [NodesIter.run]
  | cons t ts ih => simp [NodesIter.run, ih]

/-- C1: if `parse_with_userdata(r, s, u)` succeeds, then the returned
Node Collection's `user_data` is `u`, and every Tree Node reachable
from it — via `single`, top-level iteration, or any sequence of
`children` calls — has `user_data` equal to `u`. -/
theorem userdata_propagation {Rule Data E : Type}
    (engine : Rule → String → Except E (List (PTree Rule)))
    (r : Rule) (s : String) (u : Data) (c : Nodes Rule Data)
    (h : parse_with_userdata engine r s u = .ok c) :
    c.user_data = u ∧ ∀ n, Reachable c n → n.user_data = u := by
  have hud : c.userData = u := by
    unfold parse_with_userdata at h
    split at h
    · cases h
    · cases h; rfl
  refine ⟨hud, ?_⟩
  intro n hn
  induction hn with
  | top n hmem =>
      simp only [Nodes.iterList, List.mem_map] at hmem
      obtain ⟨t, -, rfl⟩ := hmem
      simpa [Node.user_data] using hud
  | sole n hs =>
      unfold Nodes.single at hs
      split at hs
      · cases hs; simpa [Node.user_data] using hud
      · cases hs
  | child n m hr hmem ih =>
      simp only [Node.children, List.mem_map] at hmem
      obtain ⟨t, -, rfl⟩ := hmem
      simpa [Node.user_data] using ih

/-- Witness for C1: parsing "1\n2\n" with user data 42 succeeds with the
collection `c42`, whose `user_data` is 42, and the first `row` child
node — reached through `single` and then `children` — also carries 42. -/
theorem userdata_propagation_witness :
    parse_with_userdata toyEngine CSVRule.file "1\n2\n" (42 : Nat) = .ok c42 ∧
    c42.user_data = 42 ∧
    Node.user_data ⟨"1\n2\n", rowTree1, 42⟩ = 42 := by
  have h := userdata_propagation toyEngine CSVRule.file "1\n2\n" 42 c42 rfl
  refine ⟨rfl, h.1, h.2 _ ?_⟩
  exact Reachable.child fileNode _ (Reachable.sole fileNode rfl) (List.Mem.head _)

/-- C2: `parse(r, s)` returns exactly the same result as
`parse_with_userdata(r, s, ())`: the same error on failure and, on
success, the Node Collection built with unit user data. -/
theorem parse_eq_parse_with_userdata {Rule E : Type}
    (engine : Rule → String → Except E (List (PTree Rule)))
    (r : Rule) (s : String) :
    parse engine r s = parse_with_userdata engine r s () := by
  unfold parse parse_with_userdata
  cases engine r s <;> rfl

/-- C3: `single` succeeds with node `n` exactly when the collection's
top-level iteration yields precisely `[n]`, and whenever the top-level
match count is not one it fails with the cardinality-mismatch error
carrying the actual count. -/
theorem single_spec {Rule Data : Type} (c : Nodes Rule Data) :
    (∀ n, c.single = .ok n ↔ c.iterList = [n]) ∧
    (c.trees.length ≠ 1 →
      c.single = .error (NodesError.expectedOneNode c.trees.length)) := by
  rcases hts : c.trees with _ | ⟨t, _ | ⟨t2, ts⟩⟩ <;>
    simp_all [Nodes.single, Nodes.iterList, hts]

/-- Witness for C3: `single` on `c42` (one top-level match) returns the
`file` node, and `single` on a collection with zero top-level matches
fails reporting count 0. -/
theorem single_spec_witness :
    c42.single = .ok fileNode ∧
    (⟨"", [], 0⟩ : Nodes CSVRule Nat).single
      = .error (NodesError.expectedOneNode 0) := by
  exact ⟨((single_spec c42).1 fileNode).2 rfl,
    (single_spec ⟨"", [], 0⟩).2 (by decide)⟩

/-- C4: when the grammar engine fails, `parse_with_userdata` returns the
engine's error value unchanged, and no Node Collection is returned. -/
theorem parse_with_userdata_propagates_error {Rule Data E : Type}
    (engine : Rule → String → Except E (List (PTree Rule)))
    (r : Rule) (s : String) (u : Data) (e : E)
    (h : engine r s = .error e) :
    parse_with_userdata engine r s u = .error e ∧
    ∀ c, parse_with_userdata engine r s u ≠ .ok c := by
  unfold parse_with_userdata
  rw [h]
  exact ⟨rfl, fun c hc => by cases hc⟩

/-- Witness for C4: the toy engine rejects input "x" for rule `number`,
and `parse_with_userdata` surfaces exactly that error. -/
theorem parse_with_userdata_propagates_error_witness :
    parse_with_userdata toyEngine CSVRule.number "x" (0 : Nat)
      = .error ⟨0⟩ ∧
    parse_with_userdata toyEngine CSVRule.number "x" (0 : Nat)
      ≠ .ok c42 := by
  have h := parse_with_userdata_propagates_error toyEngine CSVRule.number "x"
    (0 : Nat) ⟨0⟩ rfl
  exact ⟨h.1, h.2 c42⟩

/-- C5: `children` yields exactly the immediate child matches of the
node's grammar match, in recorded order, each sharing the input and
duplicating the user data; and when the engine recorded the children in
document order (non-decreasing span starts), the children's span start
offsets are non-decreasing. -/
theorem children_spec {Rule Data : Type} (n : Node Rule Data)
    (h : List.Chain' (fun a b => a.start ≤ b.start) (n.tree.kids.map PTree.span)) :
    n.children.map Node.tree = n.tree.kids ∧
    (∀ m ∈ n.children, m.input = n.input ∧ m.userData = n.userData) ∧
    List.Chain' (· ≤ ·) (n.children.map (fun m => m.tree.span.start)) := by
  refine ⟨?_, ?_, ?_⟩
  · simp only [Node.children, List.map_map]
    have hcomp : (Node.tree ∘ fun t => (⟨n.input, t, n.userData⟩ : Node Rule Data))
        = fun t => t := rfl
    rw [hcomp, List.map_id']
  · intro m hm
    simp only [Node.children, List.mem_map] at hm
    obtain ⟨t, -, rfl⟩ := hm
    exact ⟨rfl, rfl⟩
  · have h2 : List.Chain' (fun a b : PTree Rule => a.span.start ≤ b.span.start)
        n.tree.kids := by
      rw [List.chain'_map] at h
      exact h
    simp only [Node.children, List.map_map]
    rw [List.chain'_map]
    simpa [Function.comp] using h2

/-- Witness for C5: the `file` node's two `row` children have sorted
span starts (0 then 2), their trees are the recorded child matches, and
they duplicate the input and user data. -/
theorem children_spec_witness :
    fileNode.children.map Node.tree = fileNode.tree.kids ∧
    (fileNode.children.map (fun m => m.tree.span.start)) = [0, 2] := by
  have h := children_spec fileNode
    (by simp [fileNode, fileTree, rowTree1, rowTree2, PTree.kids, PTree.span])
  exact ⟨h.1, rfl⟩

/-- C6: `as_str` returns exactly the substring of the input text covered
by the node's rule-match span; in particular, parsing "42" with rule
`number` and taking `single().as_str()` yields "42". -/
theorem as_str_spec :
    (∀ {Rule Data : Type} (n : Node Rule Data),
      n.as_str = String.mk ((n.input.toList.drop n.tree.span.start).take
        (n.tree.span.stop - n.tree.span.start))) ∧
    ((parse toyEngine CSVRule.number "42").toOption.bind
        (fun c => c.single.toOption)).map Node.as_str = some "42" := by
  exact ⟨fun n => rfl, by decide⟩

/-- C7: the `user_data` call on a node returns the duplicate of its
stored handle and leaves the node — its input text and its parse tree —
and every sibling node entirely unchanged. -/
theorem user_data_frame {Rule Data : Type} (p n : Node Rule Data)
    (h : n ∈ p.children) :
    n.user_data_call.1 = n.user_data ∧
    n.user_data_call.2 = n ∧
    n.user_data_call.2.input = n.input ∧
    n.user_data_call.2.tree = n.tree ∧
    p.children.map (fun m => m.user_data_call.2) = p.children := by
  refine ⟨rfl, rfl, rfl, rfl, ?_⟩
  simp [Node.user_data_call]

/-- Witness for C7: calling `user_data` on the first `row` child of the
`file` node changes nothing about it or its sibling list. -/
theorem user_data_frame_witness :
    Node.user_data_call (⟨"1\n2\n", rowTree1, 42⟩ : Node CSVRule Nat)
      = (42, ⟨"1\n2\n", rowTree1, 42⟩) ∧
    fileNode.children.map (fun m => m.user_data_call.2) = fileNode.children := by
  have h := user_data_frame fileNode ⟨"1\n2\n", rowTree1, 42⟩ (List.Mem.head _)
  exact ⟨rfl, h.2.2.2.2⟩

/-- C8: parsing "1\n2\n" with rule `file` and taking
`single().children()` yields exactly two Tree Nodes whose `as_str`
values are "1" and then "2". -/
theorem file_scenario :
    ((parse toyEngine CSVRule.file "1\n2\n").toOption.bind
      (fun c => c.single.toOption)).map (fun n => n.children.map Node.as_str)
    = some ["1", "2"] := by
  decide

/-- C9: running a fresh iterator over a collection's top-level nodes
produces exactly the finite node list determined by the collection —
one node per top-level match, in order, each duplicating the
collection's user data — so restarting iteration from scratch always
reproduces the same sequence. -/
theorem iteration_restartable {Rule Data : Type} (c : Nodes Rule Data) :
    c.into_iter.run = c.iterList ∧
    c.into_iter.run.length = c.trees.length ∧
    ∀ m ∈ c.into_iter.run, m.userData = c.userData := by
  refine ⟨NodesIter.run_eq_map c.input c.userData c.trees, ?_, ?_⟩
  · rw [NodesIter.run_eq_map]
    exact List.length_map _ _
  · intro m hm
    rw [NodesIter.run_eq_map] at hm
    simp only [List.mem_map] at hm
    obtain ⟨t, -, rfl⟩ := hm
    rfl

/-- Witness for C9: a fresh iterator over `c42` runs to exactly the
one-element node list of the collection. -/
theorem iteration_restartable_witness :
    c42.into_iter.run = c42.iterList ∧
    c42.into_iter.run.length = 1 := by
  have h := iteration_restartable c42
  exact ⟨h.1, h.2.1⟩

/-- C10: `parse_with_userdata` is a pure function of the engine's answer
at (r, s) and the user data: two engines that agree at (r, s) give
equal results, and any successful result is exactly the collection
whose input is `s`, whose trees are the engine's answer, and whose user
data is `u`. -/
theorem parse_with_userdata_deterministic {Rule Data E : Type}
    (e1 e2 : Rule → String → Except E (List (PTree Rule)))
    (r : Rule) (s : String) (u : Data)
    (h : e1 r s = e2 r s) :
    parse_with_userdata e1 r s u = parse_with_userdata e2 r s u ∧
    ∀ c, parse_with_userdata e1 r s u = .ok c →
      c.input = s ∧ c.userData = u ∧ e1 r s = .ok c.trees := by
  constructor
  · unfold parse_with_userdata
    rw [h]
  · intro c hc
    unfold parse_with_userdata at hc
    split at hc
    · cases hc
    · cases hc
      exact ⟨rfl, rfl, by assumption⟩

/-- Witness for C10: `toyEngine` and `toyEngineB` agree on rule `number`
with input "42", so the two parses agree, and the successful result is
the collection of input "42", the number tree, and user data 5. -/
theorem parse_with_userdata_deterministic_witness :
    parse_with_userdata toyEngine CSVRule.number "42" (5 : Nat)
      = parse_with_userdata toyEngineB CSVRule.number "42" 5 ∧
    ("42" : String) = "42" ∧ (5 : Nat) = 5 := by
  have h := parse_with_userdata_deterministic toyEngine toyEngineB
    CSVRule.number "42" (5 : Nat) rfl
  exact ⟨h.1, (h.2 ⟨"42", [PTree.mk CSVRule.number ⟨0, 2⟩ []], 5⟩ rfl).1, rfl⟩
